import Mathlib

/-!
Verification development for the MCP email servers repository.

The repository holds two small Python MCP servers:
* `src/server.py` — an FOI (Freedom of Information) triage server with tools
  `process-unread-foi` and `compose-internal-draft`;
* `src/mcp_server_email_/gmail_client.py` and `server.py` — a simpler server
  with tools `get_unread` and `create_draft_reply`.

The Gmail REST gateway is modelled as explicit inputs: listing/fetch results
are passed in as `Except String _` values (an `HttpError` raised by the
gateway is modelled as the `.error` branch carrying the stringified error),
and a created draft is recorded as a `Draft`/`ReplyDraftPayload` value rather
than an HTTP call.  Base64url body decoding and Python's full Unicode
`str.lower` are kept abstract / ASCII-level: decoding is a parameter
`decode : String → String`, and case folding is per-character `Char.toLower`.
-/

/-- Python `s.lower()` modelled as per-character case folding. -/
def lowerStr (s : String) : String := ⟨s.data.map Char.toLower⟩

/-- Python `needle in hay` (substring containment). -/
def containsSub (hay needle : String) : Bool :=
  hay.data.tails.any (fun t => needle.data.isPrefixOf t)

/-- Python `s.startswith(p)`. -/
def pyStartsWith (s p : String) : Bool := p.data.isPrefixOf s.data

/-- Python dict built by `{h["name"]: h["value"] for h in headers}` followed by
`.get k` : on duplicate header names the later entry wins. -/
def headers_dict (hs : List (String × String)) (k : String) : Option String :=
  (hs.reverse.find? (fun h => h.1 == k)).map (·.2)

/-- Python `a or b` on an optional string `a` (None and `""` are falsy). -/
def orS : Option String → String → String
  | some s, b => if s = "" then b else s
  | none, b => b

/-- Python f-string interpolation of a `row.get(...)` value: `None` prints as
the string `"None"`. -/
def pyStrOpt : Option String → String
  | some s => s
  | none => "None"

-- --------------------------------------------------------------------------
-- src/server.py  (FOI triage server)
-- --------------------------------------------------------------------------

/-- `MAX_FOI_ROWS_FOR_CLAUDE = 50` (src/server.py line 46). -/
def MAX_FOI_ROWS_FOR_CLAUDE : Nat := 50

/-- `generate_cam_reference()` returns `f"CAM{random.randint(1000, 9999)}"`;
the random draw is modelled as the argument `n` (randint yields
`1000 ≤ n ≤ 9999`). -/
def generate_cam_reference (n : Nat) : String := "CAM" ++ toString n

/-- `generate_external_ack(ref)` — the fixed acknowledgement template of
src/server.py lines 77-92. -/
def generate_external_ack (ref : String) : String :=
  "Dear Sir or Madam,\n\nThank you for your request for information.\n\nYour request has been logged under the reference number " ++ ref ++ ".\nPlease quote this reference in any future correspondence.\n\nWe will respond within 20 working days in accordance with the\nFreedom of Information Act 2000.\n\nKind Regards,\n\nInformation Rights Team\nLondon Borough of Camden\n"

/-- One parsed data row of `camden_foi_responses.csv` as `csv.DictReader`
yields it; `row.get(col)` is `none` when the column is missing. -/
structure FoiRow where
  identifier : Option String
  title : Option String
  text : Option String
  link : Option String

/-- The f-string appended for one row in `load_foi_library_for_claude`. -/
def format_foi_row (r : FoiRow) : String :=
  "ID: " ++ pyStrOpt r.identifier ++ "\nTitle: " ++ pyStrOpt r.title ++
    "\nText: " ++ pyStrOpt r.text ++ "\nLink: " ++ pyStrOpt r.link

/-- The `for i, row in enumerate(reader): if i >= MAX_FOI_ROWS_FOR_CLAUDE:
break` loop of `load_foi_library_for_claude`, starting at index `i`. -/
def load_foi_rows : Nat → List FoiRow → List String
  | _, [] => []
  | i, r :: rest =>
    if MAX_FOI_ROWS_FOR_CLAUDE ≤ i then []
    else format_foi_row r :: load_foi_rows (i + 1) rest

/-- `load_foi_library_for_claude()` with the parsed CSV data rows as input:
formats the first 50 rows and joins them with `"\n\n---\n\n"`. -/
def load_foi_library_for_claude (rows : List FoiRow) : String :=
  String.intercalate "\n\n---\n\n" (load_foi_rows 0 rows)

/-- Python dict insertion `d[k] = v`: replaces in place if the key exists,
otherwise appends (dicts preserve insertion order). -/
def dictInsert (d : List (String × String)) (k v : String) :
    List (String × String) :=
  if d.any (fun p => p.1 == k) then
    d.map (fun p => if p.1 == k then (k, v) else p)
  else d ++ [(k, v)]

/-- `load_team_contacts()` with the parsed `foi_team_contacts.csv` rows
(`team`, `officer_email`) as input. -/
def load_team_contacts (rows : List (String × String)) :
    List (String × String) :=
  rows.foldl (fun teams r => dictInsert teams r.1 r.2) []

/-- A draft recorded against the Gmail gateway by `create_gmail_draft`:
the `To`/`Subject`/content fields of the MIME message plus the `threadId`
put next to `raw` in the request body. -/
structure Draft where
  «to» : String
  subject : String
  body : String
  threadId : String
deriving DecidableEq, Repr

/-- `create_gmail_draft(service, to, subject, body, thread_id)` — the draft
it creates, with the MIME/base64 encoding abstracted away. -/
def create_gmail_draft («to» subject body thread_id : String) : Draft :=
  ⟨«to», subject, body, thread_id⟩

/-- `build_claude_prompt(subject, body, foi_library, teams, ref, thread_id)`
 — the allocation-prompt f-string of src/server.py lines 143-183. -/
def build_claude_prompt (subject body foi_library : String)
    (teams : List (String × String)) (ref thread_id : String) : String :=
  let team_list := String.intercalate "\n" (teams.map (fun t => "- " ++ t.1))
  "\nYou are an FOI officer at Camden Council.\n\n### New FOI request\nSubject:\n"
    ++ subject ++ "\n\nRequest body:\n" ++ body
    ++ "\n\n---\n\n### Previous FOI responses\n" ++ foi_library
    ++ "\n\n---\n\n### Available teams\n" ++ team_list
    ++ "\n\n---\n\n### Tasks\n1. Select the TOP 5 most relevant previous FOIs.\n2. Decide the single best team to handle this request.\n3. Draft an INTERNAL allocation email.\n4. Call the tool `compose-internal-draft` to save the draft in Gmail.\n\nUse:\n- Thread ID: "
    ++ thread_id ++ "\n- Reference: " ++ ref
    ++ "\n\n---\n\n### Output rules\nYou MUST call the tool.\nDo NOT write the email in chat.\n"

/-- One body part of a fetched Gmail message: `part.get("mimeType")` and
`part["body"].get("data")` (base64url data, possibly absent). -/
structure FoiPart where
  mimeType : String
  data : Option String

/-- A message as `messages().get(format="full")` returns it to the triage
loop: `msg["threadId"]`, `msg["payload"]["headers"]`,
`msg["payload"].get("parts", [])`. -/
structure FoiMessage where
  threadId : String
  headers : List (String × String)
  parts : List FoiPart

/-- The body-extraction loop of src/server.py lines 245-251: the first
`text/plain` part with non-empty `data` is base64url-decoded (the decoder is
the abstract parameter `decode`); otherwise the body stays `""`. -/
def extract_body (decode : String → String) : List FoiPart → String
  | [] => ""
  | p :: rest =>
    if p.mimeType == "text/plain" then
      match p.data with
      | some d => if d = "" then extract_body decode rest else decode d
      | none => extract_body decode rest
    else extract_body decode rest

/-- `headers.get("Subject", "")` for a fetched message. -/
def foi_subject (m : FoiMessage) : String :=
  (headers_dict m.headers "Subject").getD ""

/-- `headers.get("From", "")` for a fetched message. -/
def foi_sender (m : FoiMessage) : String :=
  (headers_dict m.headers "From").getD ""

/-- The triage condition of src/server.py line 253: the message is processed
unless `"foi" not in subject.lower() and "foi" not in body.lower()`. -/
def foi_matched (decode : String → String) (m : FoiMessage) : Bool :=
  containsSub (lowerStr (foi_subject m)) "foi" ||
    containsSub (lowerStr (extract_body decode m.parts)) "foi"

/-- The `process-unread-foi` loop of src/server.py lines 235-280 over the
fetched unread messages.  `draws k` is the value of the `k`-th
`random.randint(1000, 9999)` call; the result is the list of drafts created
against the gateway paired with the list of allocation-prompt texts
appended to `outputs`. -/
def process_unread_foi (decode : String → String)
    (teams : List (String × String)) (foi_library : String)
    (draws : Nat → Nat) : List FoiMessage → Nat → List Draft × List String
  | [], _ => ([], [])
  | m :: ms, k =>
    if foi_matched decode m then
      let ref := generate_cam_reference (draws k)
      let d := create_gmail_draft (foi_sender m)
        ("Freedom of Information request \u00e2\u20ac\u201c " ++ ref)
        (generate_external_ack ref) m.threadId
      let prompt := build_claude_prompt (foi_subject m)
        (extract_body decode m.parts) foi_library teams ref m.threadId
      let rest := process_unread_foi decode teams foi_library draws ms (k + 1)
      (d :: rest.1, prompt :: rest.2)
    else
      process_unread_foi decode teams foi_library draws ms k

/-- The `compose-internal-draft` branch of `call_tool` (src/server.py lines
290-298): one draft threaded to the `thread_id` argument, and the fixed
confirmation text. -/
def call_tool_compose_internal_draft («to» subject body thread_id : String) :
    Draft × String :=
  (create_gmail_draft «to» subject body thread_id, "Internal draft created.")

-- --------------------------------------------------------------------------
-- src/mcp_server_email_/gmail_client.py  (unread summary / reply-draft server)
-- --------------------------------------------------------------------------

/-- A message as `messages().get(format="full")` returns it to
`get_unread_emails`: `.get` fields are optional. -/
structure FullMessage where
  id : Option String
  threadId : Option String
  snippet : Option String
  headers : List (String × String)

/-- One record of the list `get_unread_emails` returns. -/
structure EmailSummary where
  id : String
  thread_id : String
  sender : String
  subject : String
  snippet : String
deriving DecidableEq, Repr

/-- The success-path record built from a fetched message
(src/mcp_server_email_/gmail_client.py lines 143-158). -/
def summarize (msg : FullMessage) : EmailSummary :=
  { id := msg.id.getD ""
    thread_id := msg.threadId.getD ""
    sender := (headers_dict msg.headers "From").getD ""
    subject := (headers_dict msg.headers "Subject").getD ""
    snippet := msg.snippet.getD "" }

/-- `get_unread_emails(limit)` with the gateway modelled explicitly:
`listUnread limit` is the outcome of the `messages().list` call (the ids of
`response.get("messages", [])`, or the stringified `HttpError`), and
`fetch i` the outcome of `messages().get(id=i)`. -/
def get_unread_emails (limit : Nat)
    (listUnread : Nat → Except String (List String))
    (fetch : String → Except String FullMessage) : List EmailSummary :=
  match listUnread limit with
  | .error err => [⟨"", "", "", "Error while listing unread emails", err⟩]
  | .ok messages =>
    messages.map (fun msg_id =>
      match fetch msg_id with
      | .error err => ⟨msg_id, "", "", "Error loading this message", err⟩
      | .ok msg => summarize msg)

/-- The `get_unread` tool of src/mcp_server_email_/server.py: delegates to
`get_unread_emails`. -/
def get_unread (limit : Nat)
    (listUnread : Nat → Except String (List String))
    (fetch : String → Except String FullMessage) : List EmailSummary :=
  get_unread_emails limit listUnread fetch

/-- The reply-subject computation of gmail_client.py lines 214-218. -/
def reply_subject_of (subject : String) : String :=
  if pyStartsWith (lowerStr subject) "re:" then subject
  else if subject = "" then "Re: (no subject)" else "Re: " ++ subject

/-- `to_value = reply_to or from_header or to_header or ""`
(gmail_client.py line 212). -/
def reply_recipient (reply_to from_header to_header : Option String) : String :=
  orS reply_to (orS from_header (orS to_header ""))

/-- The draft request `create_reply_draft` sends to `drafts().create`:
the MIME fields of the reply `EmailMessage` (headers are set only when their
guard holds) plus the optional `threadId` of the message payload. -/
structure ReplyDraftPayload where
  «to» : Option String
  subject : String
  in_reply_to : Option String
  references : Option String
  body : String
  threadId : Option String
deriving DecidableEq, Repr

/-- The draft object returned by `drafts().create`: `draft.get("id", "")` and
`draft.get("message", {}).get("threadId", thread_id)` read these fields. -/
structure DraftResponse where
  id : Option String
  messageThreadId : Option String

/-- The original message as `messages().get(format="metadata")` returns it to
`create_reply_draft`. -/
structure MetaMessage where
  threadId : Option String
  headers : List (String × String)

/-- Lines 201-238 of gmail_client.py: build the reply draft request from the
original message and the reply body. -/
def reply_payload (original : MetaMessage) (reply_body : String) :
    ReplyDraftPayload :=
  let hs := headers_dict original.headers
  let thread_id := original.threadId.getD ""
  let subject := (hs "Subject").getD ""
  let message_id_header := (hs "Message-Id").getD ""
  let to_value := reply_recipient (hs "Reply-To") (hs "From") (hs "To")
  { «to» := if to_value = "" then none else some to_value
    subject := reply_subject_of subject
    in_reply_to := if message_id_header = "" then none else some message_id_header
    references := if message_id_header = "" then none else some message_id_header
    body := reply_body
    threadId := if thread_id = "" then none else some thread_id }

/-- The result dictionary of `create_reply_draft`: `{status: "ok", draft_id,
thread_id}` or `{status: "error", error}`. -/
inductive ReplyResult where
  | ok (draft_id : String) (thread_id : String)
  | error (error : String)
deriving DecidableEq, Repr

/-- `create_reply_draft(message_id, reply_body)` with the gateway modelled
explicitly: `getMessage message_id` is the outcome of the metadata lookup and
`draftsCreate p` the outcome of `drafts().create` on request `p`; a raised
`HttpError` is the `.error` branch carrying its stringified message. -/
def create_reply_draft (message_id reply_body : String)
    (getMessage : String → Except String MetaMessage)
    (draftsCreate : ReplyDraftPayload → Except String DraftResponse) :
    ReplyResult :=
  match getMessage message_id with
  | .error err => .error ("Failed to load original message: " ++ err)
  | .ok original =>
    let thread_id := original.threadId.getD ""
    match draftsCreate (reply_payload original reply_body) with
    | .error err => .error ("Failed to create draft: " ++ err)
    | .ok draft => .ok (draft.id.getD "") (draft.messageThreadId.getD thread_id)

/-- The `create_draft_reply` tool of src/mcp_server_email_/server.py:
delegates to `create_reply_draft`. -/
def create_draft_reply (message_id reply_body : String)
    (getMessage : String → Except String MetaMessage)
    (draftsCreate : ReplyDraftPayload → Except String DraftResponse) :
    ReplyResult :=
  create_reply_draft message_id reply_body getMessage draftsCreate

-- --------------------------------------------------------------------------
-- Spec-side predicates and sample data
-- --------------------------------------------------------------------------

/-- Case-reference format stated by the spec: `"CAM"` followed by exactly 4
decimal digits. -/
def IsCamRef (s : String) : Prop :=
  s.data.take 3 = ['C', 'A', 'M'] ∧ (s.data.drop 3).length = 4 ∧
    ∀ c ∈ s.data.drop 3, c.isDigit = true

/-- Recipient selection as claim C7 literally states it: the first header
*present* in the original message wins, whatever its value; `none` when no
header is present (no recipient). -/
def spec_reply_recipient (reply_to from_header to_header : Option String) :
    Option String :=
  (reply_to.orElse fun _ => from_header).orElse fun _ => to_header

/-- One link of the amended C7 chain: a header counts only when it is present
and non-empty. -/
def pickNonEmpty (a : Option String) : Option String :=
  a.bind fun s => if s = "" then none else some s

/-- Amended recipient selection: the first present *non-empty* header wins;
`none` when no present header is non-empty. -/
def spec_reply_recipient_amended
    (reply_to from_header to_header : Option String) : Option String :=
  (pickNonEmpty reply_to).orElse fun _ =>
    (pickNonEmpty from_header).orElse fun _ => pickNonEmpty to_header

/-- A concrete unread FOI message (subject mentions FOI, plain-text body). -/
def mFoiSample : FoiMessage :=
  { threadId := "T1"
    headers := [("Subject", "FOI Request"), ("From", "a@x.com")]
    parts := [{ mimeType := "text/plain", data := some "Please send records" }] }

/-- A concrete unread message with no FOI content anywhere. -/
def mPlainSample : FoiMessage :=
  { threadId := "T2"
    headers := [("Subject", "Lunch plans"), ("From", "b@x.com")]
    parts := [] }

/-- The acknowledgement draft the triage loop creates for `mFoiSample` when
the random draw is 1234. -/
def ackDraftSample : Draft :=
  create_gmail_draft "a@x.com"
    ("Freedom of Information request \u00e2\u20ac\u201c CAM1234")
    (generate_external_ack "CAM1234") "T1"

/-- A CSV row with every column missing. -/
def foiRowSample : FoiRow := ⟨none, none, none, none⟩

/-- An original message whose `Reply-To` header is present but empty. -/
def metaSampleEmptyReplyTo : MetaMessage :=
  { threadId := none, headers := [("Reply-To", ""), ("From", "a@x.com")] }

/-- A concrete fetched message for the `get_unread` witnesses. -/
def fullMsgSample : FullMessage :=
  { id := some "b", threadId := some "TB", snippet := some "hi"
    headers := [("From", "x@y.z"), ("Subject", "s")] }

-- --------------------------------------------------------------------------
-- Helper lemmas
-- --------------------------------------------------------------------------

theorem containsSub_iff (hay needle : String) :
    containsSub hay needle = true ↔ needle.data <:+: hay.data := by
  unfold containsSub
  rw [List.any_eq_true]
  constructor
  · rintro ⟨t, ht, hp⟩
    rw [List.mem_tails] at ht
    rw [List.isPrefixOf_iff_prefix] at hp
    exact List.infix_iff_prefix_suffix.mpr ⟨t, hp, ht⟩
  · intro h
    rcases List.infix_iff_prefix_suffix.mp h with ⟨t, hp, ht⟩
    exact ⟨t, (List.mem_tails _ _).mpr ht, List.isPrefixOf_iff_prefix.mpr hp⟩

theorem prefix_map_iff {α β : Type} (f : α → β) (l : List α) (t : List β) :
    t <+: l.map f ↔ ∃ u, u <+: l ∧ u.map f = t := by
  constructor
  · rintro ⟨s, hs⟩
    rcases List.map_eq_append_iff.mp hs.symm with ⟨u, v, rfl, hu, hv⟩
    exact ⟨u, ⟨v, rfl⟩, hu⟩
  · rintro ⟨u, hu, rfl⟩
    exact hu.map f

theorem infix_map_iff {α β : Type} (f : α → β) (l : List α) (t : List β) :
    t <:+: l.map f ↔ ∃ u, u <:+: l ∧ u.map f = t := by
  constructor
  · rintro ⟨s, s', hs⟩
    have hs2 : l.map f = s ++ (t ++ s') := by
      rw [← hs]; simp [List.append_assoc]
    rcases List.map_eq_append_iff.mp hs2 with ⟨u, v, rfl, hu, hv⟩
    rcases List.map_eq_append_iff.mp hv with ⟨w, w', rfl, hw, hw'⟩
    exact ⟨w, ⟨u, w', by simp⟩, hw⟩
  · rintro ⟨u, hu, rfl⟩
    exact hu.map f

theorem containsSub_lower_iff (s needle : String) :
    containsSub (lowerStr s) needle = true ↔
      ∃ u, u <:+: s.data ∧ u.map Char.toLower = needle.data := by
  rw [containsSub_iff]
  exact infix_map_iff Char.toLower s.data needle.data

theorem pyStartsWith_lower_iff (s p : String) :
    pyStartsWith (lowerStr s) p = true ↔
      ∃ u, u <+: s.data ∧ u.map Char.toLower = p.data := by
  unfold pyStartsWith
  rw [List.isPrefixOf_iff_prefix]
  exact prefix_map_iff Char.toLower s.data p.data

theorem digitChar_isDigit (d : Nat) (h : d < 10) :
    (Nat.digitChar d).isDigit = true := by
  interval_cases d <;> decide

theorem toDigitsCore_step (f n : Nat) (ds : List Char) (h : n / 10 ≠ 0) :
    Nat.toDigitsCore 10 (f + 1) n ds =
      Nat.toDigitsCore 10 f (n / 10) (Nat.digitChar (n % 10) :: ds) := by
  rw [Nat.toDigitsCore]
  simp [h]

theorem toDigitsCore_last (f n : Nat) (ds : List Char) (h : n / 10 = 0) :
    Nat.toDigitsCore 10 (f + 1) n ds = Nat.digitChar (n % 10) :: ds := by
  rw [Nat.toDigitsCore]
  simp [h]

theorem toDigits_four (n : Nat) (h1 : 1000 ≤ n) (h2 : n ≤ 9999) :
    Nat.toDigits 10 n =
      [Nat.digitChar (n / 1000 % 10), Nat.digitChar (n / 100 % 10),
       Nat.digitChar (n / 10 % 10), Nat.digitChar (n % 10)] := by
  obtain ⟨g, hg⟩ : ∃ g, n + 1 = g + 1 + 1 + 1 + 1 := ⟨n - 3, by omega⟩
  unfold Nat.toDigits
  rw [hg]
  rw [toDigitsCore_step _ _ _ (by omega)]
  rw [toDigitsCore_step _ _ _ (by omega)]
  rw [toDigitsCore_step _ _ _ (by omega)]
  rw [toDigitsCore_last _ _ _ (by omega)]
  have e100 : n / 10 / 10 = n / 100 := by omega
  rw [e100]
  have e1000 : n / 100 / 10 = n / 1000 := by omega
  rw [e1000]

theorem load_foi_rows_take (rows : List FoiRow) : ∀ i : Nat,
    load_foi_rows i rows = (rows.take (50 - i)).map format_foi_row := by
  induction rows with
  | nil => intro i; simp [load_foi_rows]
  | cons r rest ih =>
    intro i
    by_cases h : MAX_FOI_ROWS_FOR_CLAUDE ≤ i
    · have h50 : 50 - i = 0 := by
        have : (50 : Nat) ≤ i := h
        omega
      rw [load_foi_rows, if_pos h, h50]
      simp
    · have h50 : 50 - i = (50 - (i + 1)) + 1 := by
        have : ¬ (50 : Nat) ≤ i := h
        omega
      rw [load_foi_rows, if_neg h, h50, List.take_succ_cons, List.map_cons, ih]

theorem orS_chain_eq (a b c : Option String) :
    (if orS a (orS b (orS c "")) = "" then none
      else some (orS a (orS b (orS c "")))) =
      (pickNonEmpty a).orElse fun _ =>
        (pickNonEmpty b).orElse fun _ => pickNonEmpty c := by
  rcases a with _ | sa <;> rcases b with _ | sb <;> rcases c with _ | sc <;>
    simp only [orS, pickNonEmpty, Option.bind, Option.orElse] <;>
    split_ifs <;> simp_all

-- --------------------------------------------------------------------------
-- Claim theorems
-- --------------------------------------------------------------------------

/-- C1: in the `process-unread-foi` triage loop a fetched unread message is
classified FOI-relevant iff the literal substring "foi" appears, in any
letter case, in the extracted subject or the extracted body; a message where
neither field contains it is skipped with zero side effects (no random
reference draw, no acknowledgement draft, no allocation prompt), while a
matching message contributes exactly its acknowledgement draft and its
allocation prompt. -/
theorem c1_foi_classification_iff (decode : String → String)
    (teams : List (String × String)) (lib : String) (draws : Nat → Nat)
    (m : FoiMessage) (ms : List FoiMessage) (k : Nat) :
    (foi_matched decode m = true ↔
      (∃ u, u <:+: (foi_subject m).data ∧ u.map Char.toLower = "foi".data) ∨
      (∃ u, u <:+: (extract_body decode m.parts).data ∧
          u.map Char.toLower = "foi".data)) ∧
    (foi_matched decode m = false →
      process_unread_foi decode teams lib draws (m :: ms) k =
        process_unread_foi decode teams lib draws ms k) ∧
    (foi_matched decode m = true →
      process_unread_foi decode teams lib draws (m :: ms) k =
        (create_gmail_draft (foi_sender m)
            ("Freedom of Information request \u00e2\u20ac\u201c " ++
              generate_cam_reference (draws k))
            (generate_external_ack (generate_cam_reference (draws k)))
            m.threadId ::
          (process_unread_foi decode teams lib draws ms (k + 1)).1,
          build_claude_prompt (foi_subject m) (extract_body decode m.parts)
              lib teams (generate_cam_reference (draws k)) m.threadId ::
            (process_unread_foi decode teams lib draws ms (k + 1)).2)) := by
  refine ⟨?_, ?_, ?_⟩
  · unfold foi_matched
    rw [Bool.or_eq_true, containsSub_lower_iff, containsSub_lower_iff]
  · intro h
    simp [process_unread_foi, h]
  · intro h
    simp [process_unread_foi, h, create_gmail_draft]

/-- C1 witness: a concrete message with no "foi" in subject or body is
skipped with zero side effects. -/
theorem c1_foi_classification_iff_witness :
    process_unread_foi id [] "" (fun _ => 1234) [mPlainSample] 0 =
      process_unread_foi id [] "" (fun _ => 1234) [] 0 :=
  (c1_foi_classification_iff id [] "" (fun _ => 1234) mPlainSample [] 0).2.1
    (by decide)

/-- C2: every acknowledgement draft produced by the triage loop carries the
thread id (and sender) of the matching message that triggered it, and the
internal allocation draft of `compose-internal-draft` carries the
`thread_id` argument it was invoked with. -/
theorem c2_draft_thread_ids (decode : String → String)
    (teams : List (String × String)) (lib : String) (draws : Nat → Nat) :
    (∀ (ms : List FoiMessage) (k : Nat),
      ∀ d ∈ (process_unread_foi decode teams lib draws ms k).1,
        ∃ m, m ∈ ms ∧ foi_matched decode m = true ∧
          d.«to» = foi_sender m ∧ d.threadId = m.threadId) ∧
    (∀ («to» subject body thread_id : String),
      (call_tool_compose_internal_draft «to» subject body
          thread_id).1.threadId = thread_id) := by
  constructor
  · intro ms
    induction ms with
    | nil =>
      intro k d hd
      simp [process_unread_foi] at hd
    | cons m rest ih =>
      intro k d hd
      cases hfm : foi_matched decode m with
      | true =>
        rw [process_unread_foi] at hd
        simp only [hfm, if_true, List.mem_cons] at hd
        rcases hd with rfl | hd
        · exact ⟨m, List.mem_cons_self m rest, hfm, rfl, rfl⟩
        · rcases ih (k + 1) d hd with ⟨m', hm', hmatch, hto, hth⟩
          exact ⟨m', List.mem_cons_of_mem m hm', hmatch, hto, hth⟩
      | false =>
        rw [process_unread_foi] at hd
        simp only [hfm, if_false] at hd
        rcases ih k d hd with ⟨m', hm', hmatch, hto, hth⟩
        exact ⟨m', List.mem_cons_of_mem m hm', hmatch, hto, hth⟩
  · intro «to» subject body thread_id
    rfl

set_option maxRecDepth 100000 in
/-- C2 witness: for the concrete matching message `mFoiSample` the created
acknowledgement draft carries that message's thread id. -/
theorem c2_draft_thread_ids_witness :
    ∃ m, m ∈ [mFoiSample] ∧ foi_matched id m = true ∧
      ackDraftSample.«to» = foi_sender m ∧
      ackDraftSample.threadId = m.threadId :=
  (c2_draft_thread_ids id [] "" (fun _ => 1234)).1 [mFoiSample] 0
    ackDraftSample (by decide)

/-- C3: `create_draft_reply` always returns a structured result — it is the
stringified-and-prefixed error when the metadata lookup or the draft
creation fails, and the ok record built from the created draft otherwise;
no gateway failure escapes the tool boundary. -/
theorem c3_create_draft_reply_total (message_id reply_body : String)
    (getMessage : String → Except String MetaMessage)
    (draftsCreate : ReplyDraftPayload → Except String DraftResponse) :
    ((∃ e, create_draft_reply message_id reply_body getMessage draftsCreate =
        .error e) ∨
      (∃ d t, create_draft_reply message_id reply_body getMessage draftsCreate =
        .ok d t)) ∧
    (∀ e, getMessage message_id = .error e →
      create_draft_reply message_id reply_body getMessage draftsCreate =
        .error ("Failed to load original message: " ++ e)) ∧
    (∀ original, getMessage message_id = .ok original →
      (∀ e, draftsCreate (reply_payload original reply_body) = .error e →
        create_draft_reply message_id reply_body getMessage draftsCreate =
          .error ("Failed to create draft: " ++ e)) ∧
      (∀ draft, draftsCreate (reply_payload original reply_body) = .ok draft →
        create_draft_reply message_id reply_body getMessage draftsCreate =
          .ok (draft.id.getD "")
            (draft.messageThreadId.getD (original.threadId.getD "")))) := by
  refine ⟨?_, ?_, ?_⟩
  · rcases hG : getMessage message_id with e | original
    · exact Or.inl ⟨"Failed to load original message: " ++ e,
        by simp [create_draft_reply, create_reply_draft, hG]⟩
    · rcases hD : draftsCreate (reply_payload original reply_body) with e | draft
      · exact Or.inl ⟨"Failed to create draft: " ++ e,
          by simp [create_draft_reply, create_reply_draft, hG, hD]⟩
      · exact Or.inr ⟨draft.id.getD "",
          draft.messageThreadId.getD (original.threadId.getD ""),
          by simp [create_draft_reply, create_reply_draft, hG, hD]⟩
  · intro e he
    simp [create_draft_reply, create_reply_draft, he]
  · intro original ho
    refine ⟨fun e he => ?_, fun draft hd => ?_⟩
    · simp [create_draft_reply, create_reply_draft, ho, he]
    · simp [create_draft_reply, create_reply_draft, ho, hd]

/-- C3 witness: a gateway that fails the metadata lookup yields the
error-shaped result, not an exception. -/
theorem c3_create_draft_reply_total_witness :
    create_draft_reply "m1" "hello"
        (fun _ => Except.error "HttpError 404")
        (fun _ => Except.error "unused") =
      .error ("Failed to load original message: HttpError 404") :=
  (c3_create_draft_reply_total "m1" "hello"
      (fun _ => Except.error "HttpError 404")
      (fun _ => Except.error "unused")).2.1 "HttpError 404" rfl

/-- C4: when the unread-listing gateway call fails, `get_unread` returns the
one-element list whose record has the literal error subject and the
stringified error as snippet. -/
theorem c4_listing_error_record (limit : Nat) (e : String)
    (listUnread : Nat → Except String (List String))
    (fetch : String → Except String FullMessage)
    (h : listUnread limit = .error e) :
    get_unread limit listUnread fetch =
      [{ id := "", thread_id := "", sender := "",
         subject := "Error while listing unread emails", snippet := e }] := by
  unfold get_unread get_unread_emails
  rw [h]

/-- C4 witness: a concrete listing failure produces exactly the synthetic
error record. -/
theorem c4_listing_error_record_witness :
    get_unread 5 (fun _ => Except.error "boom")
        (fun _ => Except.ok fullMsgSample) =
      [{ id := "", thread_id := "", sender := "",
         subject := "Error while listing unread emails",
         snippet := "boom" }] :=
  c4_listing_error_record 5 "boom" (fun _ => Except.error "boom")
    (fun _ => Except.ok fullMsgSample) rfl

set_option maxRecDepth 100000 in
/-- C5 (code bug): for the concrete matching message `mFoiSample` with draw
1234 the acknowledgement draft is addressed to the sender, threaded to the
message and carries the template body, but its subject contains the
mojibake sequence U+00E2 U+20AC U+201C (a double-encoded en dash of
src/server.py line 262), not the en dash U+2013 the spec states. -/
theorem c5_ack_subject_mojibake :
    (process_unread_foi id [] "" (fun _ => 1234) [mFoiSample] 0).1 =
      [{ «to» := "a@x.com",
         subject := "Freedom of Information request \u00e2\u20ac\u201c CAM1234",
         body := generate_external_ack "CAM1234",
         threadId := "T1" }] ∧
    "Freedom of Information request \u00e2\u20ac\u201c CAM1234" ≠
      "Freedom of Information request \u2013 CAM1234" := by
  constructor
  · decide
  · decide

/-- C6: the reply-subject computation maps "Hello" to "Re: Hello" and leaves
any subject that already begins with "re:" in any letter case unchanged, so
it never adds a second prefix. -/
theorem c6_reply_subject_re (s : String) :
    reply_subject_of "Hello" = "Re: Hello" ∧
    reply_subject_of "Re: Hello" = "Re: Hello" ∧
    ((∃ u, u <+: s.data ∧ u.map Char.toLower = "re:".data) →
      reply_subject_of s = s) := by
  refine ⟨by decide, by decide, fun h => ?_⟩
  have hb : pyStartsWith (lowerStr s) "re:" = true :=
    (pyStartsWith_lower_iff s "re:").mpr h
  simp [reply_subject_of, hb]

/-- C6 witness: a mixed-case "rE:" subject is returned unchanged. -/
theorem c6_reply_subject_re_witness :
    reply_subject_of "rE: Hi" = "rE: Hi" :=
  (c6_reply_subject_re "rE: Hi").2.2 ⟨['r', 'E', ':'], by decide, by decide⟩

/-- C7 counterexample: with a present-but-empty `Reply-To` header and a
non-empty `From`, the code's reply recipient is the `From` address, while
the claim's "first present header wins" chain selects the empty `Reply-To`
value — so the claim as stated is false. -/
theorem c7_recipient_counterexample :
    (reply_payload metaSampleEmptyReplyTo "body").«to» = some "a@x.com" ∧
    spec_reply_recipient
        (headers_dict metaSampleEmptyReplyTo.headers "Reply-To")
        (headers_dict metaSampleEmptyReplyTo.headers "From")
        (headers_dict metaSampleEmptyReplyTo.headers "To") = some "" ∧
    some "a@x.com" ≠ (some "" : Option String) := by
  refine ⟨by decide, by decide, by decide⟩

/-- C7 amended: the reply recipient is computed by the fallback chain
Reply-To → From → To where the first *present and non-empty* header wins;
when no header is present and non-empty the reply has no recipient. -/
theorem c7_recipient_chain_amended (original : MetaMessage)
    (reply_body : String) :
    (reply_payload original reply_body).«to» =
      spec_reply_recipient_amended
        (headers_dict original.headers "Reply-To")
        (headers_dict original.headers "From")
        (headers_dict original.headers "To") := by
  show (if reply_recipient (headers_dict original.headers "Reply-To")
          (headers_dict original.headers "From")
          (headers_dict original.headers "To") = "" then none
        else some (reply_recipient (headers_dict original.headers "Reply-To")
          (headers_dict original.headers "From")
          (headers_dict original.headers "To"))) = _
  unfold reply_recipient spec_reply_recipient_amended
  exact orS_chain_eq _ _ _

/-- C8: the Knowledge Loader formats exactly the first 50 data rows in
source order — never more than 50 records, and exactly 50 for a 100-row
source. -/
theorem c8_library_first_50 (rows : List FoiRow) :
    load_foi_rows 0 rows = (rows.take 50).map format_foi_row ∧
    (load_foi_rows 0 rows).length ≤ 50 ∧
    (rows.length = 100 → (load_foi_rows 0 rows).length = 50) := by
  have h := load_foi_rows_take rows 0
  refine ⟨by simpa using h, ?_, ?_⟩
  · rw [h]
    simp
  · intro hlen
    rw [h]
    simp [hlen]

/-- C8 witness: a 100-row source yields exactly 50 records. -/
theorem c8_library_first_50_witness :
    (load_foi_rows 0 (List.replicate 100 foiRowSample)).length = 50 :=
  (c8_library_first_50 (List.replicate 100 foiRowSample)).2.2 (by simp)

/-- C9: for every draw `randint(1000, 9999)` can produce, the generated case
reference is "CAM" followed by exactly 4 decimal digits. -/
theorem c9_cam_reference_format (n : Nat) (h1 : 1000 ≤ n) (h2 : n ≤ 9999) :
    IsCamRef (generate_cam_reference n) := by
  have hdata : (generate_cam_reference n).data =
      'C' :: 'A' :: 'M' :: Nat.toDigits 10 n := by
    show ("CAM" ++ toString n).data = _
    rw [String.data_append]
    rfl
  rw [toDigits_four n h1 h2] at hdata
  refine ⟨?_, ?_, ?_⟩
  · rw [hdata]
    rfl
  · rw [hdata]
    rfl
  · rw [hdata]
    intro c hc
    simp only [List.drop_succ_cons, List.drop_zero, List.mem_cons,
      List.not_mem_nil, or_false] at hc
    rcases hc with rfl | rfl | rfl | rfl <;>
      exact digitChar_isDigit _ (Nat.mod_lt _ (by norm_num))

/-- C9 witness: the draw 1234 produces "CAM1234", which matches the
pattern. -/
theorem c9_cam_reference_format_witness :
    IsCamRef (generate_cam_reference 1234) :=
  c9_cam_reference_format 1234 (by decide) (by decide)

/-- C10: when fetching one listed message fails, that message still yields
exactly one record — its id, the literal error subject, and the stringified
error as snippet — at its own position, and the result keeps one record per
listed message. -/
theorem c10_fetch_error_per_message (limit : Nat) (ids : List String)
    (i : Nat) (mid e : String)
    (listUnread : Nat → Except String (List String))
    (fetch : String → Except String FullMessage)
    (hlist : listUnread limit = .ok ids)
    (hid : ids[i]? = some mid)
    (hfetch : fetch mid = .error e) :
    (get_unread_emails limit listUnread fetch).length = ids.length ∧
    (get_unread_emails limit listUnread fetch)[i]? =
      some ⟨mid, "", "", "Error loading this message", e⟩ := by
  unfold get_unread_emails
  rw [hlist]
  constructor
  · simp
  · rw [List.getElem?_map, hid]
    simp [hfetch]

/-- C10 witness: with two listed messages where fetching the first fails,
the result still has two records and the first is the per-message error
record. -/
theorem c10_fetch_error_per_message_witness :
    (get_unread_emails 2 (fun _ => Except.ok ["a", "b"])
        (fun i => if i = "a" then Except.error "boom"
          else Except.ok fullMsgSample)).length = 2 ∧
    (get_unread_emails 2 (fun _ => Except.ok ["a", "b"])
        (fun i => if i = "a" then Except.error "boom"
          else Except.ok fullMsgSample))[0]? =
      some ⟨"a", "", "", "Error loading this message", "boom"⟩ :=
  c10_fetch_error_per_message 2 ["a", "b"] 0 "a" "boom"
    (fun _ => Except.ok ["a", "b"])
    (fun i => if i = "a" then Except.error "boom"
      else Except.ok fullMsgSample) rfl rfl rfl
